import Mathlib

/-!
Verification of the FDA label extraction engine (daily_automation.py and
scripts/zip5.py), centred on the Generation 2 extraction `establishments2`
and the two conversions of its rows into output mappings.

The document model below is a shallow embedding of exactly the structure
the source reads through its XPath queries:
  * `Document.estabs` is the list of nodes matching the fixed path
    author/assignedEntity/representedOrganization/assignedEntity/
    assignedOrganization/assignedEntity, in document order;
  * for each establishment, `nameTexts` is the list of text contents of
    its descendant name nodes (a text content may be Python None, hence
    `Option String`), `ids` is the list of its descendant id nodes with
    their root and extension attributes (each optional, since the XPath
    attribute queries only return nodes carrying the attribute), and
    `acts` is the list of its performance/actDefinition descendants;
  * for each actDefinition, `displayNames` and `codes` are the attribute
    value lists returned by code/@displayName and code/@code, and `ndcs`
    is the list returned by
    product/manufacturedProduct/manufacturedMaterialKind/code/@code.
-/

/-- An id node as seen by the source: root and extension attributes,
each possibly missing. -/
structure IdNode where
  root : Option String
  extension : Option String
deriving DecidableEq

/-- A performance/actDefinition node: the attribute lists the source
queries from it. -/
structure ActDef where
  displayNames : List String
  codes : List String
  ndcs : List String
deriving DecidableEq

/-- An establishment node matched by the fixed author path. -/
structure Establishment where
  nameTexts : List (Option String)
  ids : List IdNode
  acts : List ActDef
deriving DecidableEq

/-- A parsed label document, reduced to what `establishments2` reads. -/
structure Document where
  estabs : List Establishment
deriving DecidableEq

/-- One row of the `estab_list` built by `establishments2`:
count, establishment name, DUNS, activity display name, activity code,
NDC. The name field is `Option String` because lxml text content of an
empty name element is Python None; the other fields are always strings
(attribute values or the sentinel). -/
structure Row where
  seq : Nat
  est : Option String
  duns : String
  act : String
  actCode : String
  ndc : String
deriving DecidableEq

/-- Establishment name: text of the first descendant name node, the
sentinel on IndexError. Mirrors `estab.xpath(".//v3:name")[0].text`
with its IndexError fallback. -/
def estName (e : Establishment) : Option String :=
  match e.nameTexts.head? with
  | none => some "n/a"
  | some t => t

/-- Establishment DUNS: first extension attribute among descendant id
nodes, the sentinel on IndexError. Mirrors
`estab.xpath(".//v3:id/@extension")[0]`; note the root attribute is
never consulted. -/
def estDuns (e : Establishment) : String :=
  ((e.ids.filterMap IdNode.extension).head?).getD "n/a"

/-- Activity display name: first code/@displayName value, sentinel on
IndexError. -/
def actDisplay (a : ActDef) : String :=
  (a.displayNames.head?).getD "n/a"

/-- Activity code: first code/@code value, sentinel on IndexError. -/
def actCodeVal (a : ActDef) : String :=
  (a.codes.head?).getD "n/a"

/-- Rows produced for one actDefinition of one establishment: one row
per NDC found, or a single sentinel-NDC row when the NDC list is empty.
Mirrors the inner loop of `establishments2`. -/
def actRows (seq : Nat) (nm : Option String) (dn : String) (a : ActDef) : List Row :=
  if a.ndcs = [] then
    [⟨seq, nm, dn, actDisplay a, actCodeVal a, "n/a"⟩]
  else
    a.ndcs.map (fun n => ⟨seq, nm, dn, actDisplay a, actCodeVal a, n⟩)

/-- Rows produced for one establishment: one row per activity and NDC,
or a single all-sentinel-activity row when the establishment has no
performance/actDefinition nodes. -/
def estRows (seq : Nat) (e : Establishment) : List Row :=
  if e.acts = [] then
    [⟨seq, estName e, estDuns e, "n/a", "n/a", "n/a"⟩]
  else
    e.acts.flatMap (actRows seq (estName e) (estDuns e))

/-- The establishment loop of `establishments2`: `count` starts at the
given value and is incremented before each establishment is processed. -/
def estabLoop : Nat → List Establishment → List Row
  | _, [] => []
  | n, e :: rest => estRows (n + 1) e ++ estabLoop (n + 1) rest

/-- The Generation 2 extraction, `establishments2` in both
daily_automation.py and scripts/zip5.py (the two copies have identical
behaviour). Returns the full row list; on a document with no
establishment matching the fixed path, a single all-sentinel row with
count 0. -/
def establishments2 (doc : Document) : List Row :=
  if doc.estabs = [] then
    [⟨0, some "n/a", "n/a", "n/a", "n/a", "n/a"⟩]
  else
    estabLoop 0 doc.estabs

/-- Python truthiness of an optional string: None and the empty string
are falsy, every other string truthy. -/
def pyTruthy : Option String → Bool
  | none => false
  | some s => s ≠ ""

/-- The sentinel-to-null conversion `None if x == "n/a" else x`. -/
def toOpt (s : String) : Option String :=
  if s = "n/a" then none else some s

/-- NDC with dashes removed: the semantics of
`ndc_value.replace("-", "")`, which deletes every dash character. -/
def stripDashes (s : String) : String :=
  String.mk (s.data.filter (fun c => c ≠ '-'))

/-- The ndc_digits computation: `ndc_value.replace("-", "") if
ndc_value else None` — guarded by Python truthiness of the converted
NDC. -/
def mkDigits : Option String → Option String
  | none => none
  | some s => if s ≠ "" then some (stripDashes s) else none

/-- A final emitted record: ndc, duns, ndc_digits, each nullable. -/
structure OutputMapping where
  ndc : Option String
  duns : Option String
  ndc_digits : Option String
deriving DecidableEq

/-- The per-row conversion of daily_automation.process_xml_file: convert
sentinels to null, compute ndc_digits, and keep the record only when
`ndc_value or duns_value` is truthy. -/
def rowToMapping (r : Row) : Option OutputMapping :=
  if pyTruthy (toOpt r.ndc) || pyTruthy (toOpt r.duns) then
    some ⟨toOpt r.ndc, toOpt r.duns, mkDigits (toOpt r.ndc)⟩
  else
    none

/-- The record list daily_automation.process_xml_file builds from one
successfully parsed document. -/
def process_xml_records (doc : Document) : List OutputMapping :=
  (establishments2 doc).filterMap rowToMapping

/-- daily_automation.process_xml_file on one input: a parse failure
(`none`) yields the empty list via the surrounding try/except; a parsed
document is processed normally. -/
def process_xml_file : Option Document → List OutputMapping
  | none => []
  | some doc => process_xml_records doc

/-- The per-row conversion inside zip5.traverse_xmls_and_extract_data:
only rows whose raw activity field is literally MANUFACTURE or
manufacture are considered; the record is skipped when both converted
values are falsy. -/
def zipRowToMapping (r : Row) : Option OutputMapping :=
  if r.act = "MANUFACTURE" ∨ r.act = "manufacture" then
    if !pyTruthy (toOpt r.ndc) && !pyTruthy (toOpt r.duns) then
      none
    else
      some ⟨toOpt r.ndc, toOpt r.duns, mkDigits (toOpt r.ndc)⟩
  else
    none

/-- The mappings zip5.traverse_xmls_and_extract_data collects from one
successfully parsed document. -/
def traverse_extract (doc : Document) : List OutputMapping :=
  (establishments2 doc).filterMap zipRowToMapping

/-- The daily_automation batch over a list of parse results: each file
contributes its records; a file whose parse failed contributes nothing. -/
def process_batch (inputs : List (Option Document)) : List OutputMapping :=
  inputs.flatMap process_xml_file

/-- The zip5 batch loop over a list of parse results: the per-file
try/except turns a parse failure into no contribution and continues. -/
def traverse_batch (inputs : List (Option Document)) : List OutputMapping :=
  inputs.flatMap (fun inp =>
    match inp with
    | none => []
    | some doc => traverse_extract doc)

/-- Claimed record count for one establishment: 1 when it has no
activities, else the sum over its activities of max(1, NDC count). This
definition follows the wording of the record-count claim, to be compared
with the length of the list the code builds. -/
def claimEstabCount (e : Establishment) : Nat :=
  if e.acts = [] then 1
  else (e.acts.map (fun a => max 1 a.ndcs.length)).sum

/-- Claimed record count for a document, following the wording of the
record-count claim. -/
def claimCount (doc : Document) : Nat :=
  if doc.estabs = [] then 1
  else (doc.estabs.map claimEstabCount).sum

/-- Modelled from the spec: an OrganizationCandidate of the Generation 1
correlator (spec section 3); the Generation 1 code itself is not among
the source files, only its specification. -/
structure OrganizationCandidate where
  identifier : Option String
  orgName : Option String
  isManufacturer : Bool
  fromAuthorPath : Bool
deriving DecidableEq

/-- Modelled from the spec: a ProductCandidate of the Generation 1
correlator (spec section 3). -/
structure ProductCandidate where
  ndc : String
  relatedIdentifier : Option String
deriving DecidableEq

/-- Update a key in an association list, replacing the existing entry
for the key when present (last-write-wins keyed map). -/
def setKey : List (String × String) → String → String → List (String × String)
  | [], k, v => [(k, v)]
  | (a, b) :: t, k, v =>
      if a = k then (k, v) :: t else (a, b) :: setKey t k v

/-- Modelled from the spec: the Generation 1 manufacturer restriction
with author-path fallback (spec section 4.4) — keep the candidates
classified as manufacturers; when none exist, fall back to every
candidate found via the authoring-organization path. -/
def gen1Manufacturers (orgs : List OrganizationCandidate) : List OrganizationCandidate :=
  let mans := orgs.filter (fun o => o.isManufacturer)
  if mans = [] then orgs.filter (fun o => o.fromAuthorPath) else mans

/-- Modelled from the spec: one Generation 1 correlation step for one
ProductCandidate (spec section 4.4) — a related identifier is matched
against the manufacturer list and skipped when unmatched; a product with
no related identifier goes to the first manufacturer when one with an
identifier exists; the NDC-keyed map is updated last-write-wins. -/
def gen1Step (mans : List OrganizationCandidate) (m : List (String × String))
    (p : ProductCandidate) : List (String × String) :=
  match p.relatedIdentifier with
  | some rid =>
      if mans.any (fun o => o.identifier = some rid) then setKey m p.ndc rid else m
  | none =>
      match mans.head? with
      | some o =>
          match o.identifier with
          | some d => setKey m p.ndc d
          | none => m
      | none => m

/-- Modelled from the spec: the Generation 1 correlator (spec section
4.4), absent from the source files — fold the correlation step over the
product candidates and emit one OutputMapping per surviving NDC key,
both fields present, with ndcDigits computed. -/
def gen1 (orgs : List OrganizationCandidate) (prods : List ProductCandidate) :
    List OutputMapping :=
  (prods.foldl (gen1Step (gen1Manufacturers orgs)) []).map
    (fun kv => ⟨some kv.1, some kv.2, some (stripDashes kv.1)⟩)

/-- Root-attribute rewriting of an id node, leaving the extension
unchanged; used to state that DUNS extraction never inspects roots. -/
def mapRootsId (f : Option String → Option String) (i : IdNode) : IdNode :=
  ⟨f i.root, i.extension⟩

/-- Root-attribute rewriting over an establishment. -/
def mapRootsEstab (f : Option String → Option String) (e : Establishment) : Establishment :=
  ⟨e.nameTexts, e.ids.map (mapRootsId f), e.acts⟩

/-- Root-attribute rewriting over a whole document. -/
def mapRoots (f : Option String → Option String) (doc : Document) : Document :=
  ⟨doc.estabs.map (mapRootsEstab f)⟩

/-! Helper lemmas about the row counts of `establishments2`. -/

theorem actRows_length (seq : Nat) (nm : Option String) (dn : String) (a : ActDef) :
    (actRows seq nm dn a).length = max 1 a.ndcs.length := by
  unfold actRows
  cases h : a.ndcs with
  | nil => simp [h]
  | cons x xs => simp [h]

theorem actRows_ne_nil (seq : Nat) (nm : Option String) (dn : String) (a : ActDef) :
    actRows seq nm dn a ≠ [] := by
  unfold actRows
  split
  · simp
  · rename_i h
    simpa using h

theorem flatMap_actRows_length (seq : Nat) (nm : Option String) (dn : String)
    (l : List ActDef) :
    (l.flatMap (actRows seq nm dn)).length
      = (l.map (fun a => max 1 a.ndcs.length)).sum := by
  induction l with
  | nil => simp
  | cons a t ih => simp [actRows_length, ih]

theorem estRows_length (seq : Nat) (e : Establishment) :
    (estRows seq e).length = claimEstabCount e := by
  unfold estRows claimEstabCount
  split
  · simp
  · exact flatMap_actRows_length seq (estName e) (estDuns e) e.acts

theorem estRows_ne_nil (seq : Nat) (e : Establishment) :
    estRows seq e ≠ [] := by
  unfold estRows
  split
  · simp
  · rename_i h
    cases ha : e.acts with
    | nil => exact absurd ha h
    | cons a t =>
        rw [List.flatMap_cons]
        exact List.append_ne_nil_of_left_ne_nil (actRows_ne_nil _ _ _ _) _

theorem estabLoop_length (n : Nat) (es : List Establishment) :
    (estabLoop n es).length = (es.map claimEstabCount).sum := by
  induction es generalizing n with
  | nil => simp [estabLoop]
  | cons e t ih => simp [estabLoop, estRows_length, ih]

/-- C1: for every parsed document, `establishments2` returns a non-empty
list whose length is 1 when no establishment matches the fixed author
path, and otherwise the sum over matched establishments of (1 when the
establishment has no performance/actDefinition nodes, else the sum over
its actDefinition nodes of max(1, number of NDC codes under the
activity's product path)). -/
theorem C1_record_count (doc : Document) :
    establishments2 doc ≠ [] ∧ (establishments2 doc).length = claimCount doc := by
  unfold establishments2 claimCount
  by_cases h : doc.estabs = []
  · simp [h]
  · rw [if_neg h, if_neg h]
    refine ⟨?_, estabLoop_length 0 doc.estabs⟩
    cases ha : doc.estabs with
    | nil => exact absurd ha h
    | cons e t =>
        rw [estabLoop]
        exact List.append_ne_nil_of_left_ne_nil (estRows_ne_nil _ _) _

/-- C2: a document with no establishment on the fixed path yields exactly
one record with sequence index 0 and all other fields the sentinel; an
establishment with no activities yields exactly one record with sentinel
activity and NDC fields; an activity with no NDCs yields exactly one
record with sentinel NDC. -/
theorem C2_sentinel_records (doc : Document) (e : Establishment) (seq : Nat)
    (nm : Option String) (dn : String) (a : ActDef) :
    (doc.estabs = [] →
      establishments2 doc = [⟨0, some "n/a", "n/a", "n/a", "n/a", "n/a"⟩]) ∧
    (e.acts = [] →
      estRows seq e = [⟨seq, estName e, estDuns e, "n/a", "n/a", "n/a"⟩]) ∧
    (a.ndcs = [] →
      actRows seq nm dn a = [⟨seq, nm, dn, actDisplay a, actCodeVal a, "n/a"⟩]) := by
  refine ⟨fun h => ?_, fun h => ?_, fun h => ?_⟩
  · simp [establishments2, h]
  · simp [estRows, h]
  · simp [actRows, h]

/-- C2 witness: the three sentinel cases evaluated at concrete inputs. -/
theorem C2_sentinel_records_witness :
    establishments2 ⟨[]⟩ = [⟨0, some "n/a", "n/a", "n/a", "n/a", "n/a"⟩] ∧
    estRows 1 ⟨[], [], []⟩ = [⟨1, some "n/a", "n/a", "n/a", "n/a", "n/a"⟩] ∧
    actRows 1 (some "n/a") "n/a" ⟨[], [], []⟩
      = [⟨1, some "n/a", "n/a", "n/a", "n/a", "n/a"⟩] :=
  ⟨(C2_sentinel_records ⟨[]⟩ ⟨[], [], []⟩ 1 (some "n/a") "n/a" ⟨[], [], []⟩).1 rfl,
   (C2_sentinel_records ⟨[]⟩ ⟨[], [], []⟩ 1 (some "n/a") "n/a" ⟨[], [], []⟩).2.1 rfl,
   (C2_sentinel_records ⟨[]⟩ ⟨[], [], []⟩ 1 (some "n/a") "n/a" ⟨[], [], []⟩).2.2 rfl⟩

/-! Properties of the ndc_digits computation and the emit conditions. -/

theorem mkDigits_eq_none_iff (v : Option String) :
    mkDigits v = none ↔ (v = none ∨ v = some "") := by
  cases v with
  | none => simp [mkDigits]
  | some s =>
      by_cases h : s = ""
      · simp [mkDigits, h]
      · simp [mkDigits, h]

theorem mkDigits_eq_strip {s : String} (h : s ≠ "") :
    mkDigits (some s) = some (stripDashes s) := by
  simp [mkDigits, h]

theorem rowToMapping_eq_some {r : Row} {m : OutputMapping}
    (h : rowToMapping r = some m) :
    m.ndc = toOpt r.ndc ∧ m.ndc_digits = mkDigits (toOpt r.ndc) := by
  unfold rowToMapping at h
  split at h
  · injection h with h
    subst h
    exact ⟨rfl, rfl⟩
  · exact Option.noConfusion h

theorem zipRowToMapping_eq_some {r : Row} {m : OutputMapping}
    (h : zipRowToMapping r = some m) :
    m.ndc = toOpt r.ndc ∧ m.ndc_digits = mkDigits (toOpt r.ndc) := by
  unfold zipRowToMapping at h
  split at h
  · split at h
    · exact Option.noConfusion h
    · injection h with h
      subst h
      exact ⟨rfl, rfl⟩
  · exact Option.noConfusion h

/-- Document with one establishment whose activity carries the
empty-string NDC attribute and whose DUNS is present; used to refute the
claimed absence equivalence for ndc_digits. -/
def c3doc : Document :=
  ⟨[⟨[], [⟨some "1.3.6.1.4.1.519.1", some "123456789"⟩], [⟨[], [], [""]⟩]⟩]⟩

/-- C3 counterexample: on `c3doc` the emitted mapping has a present
(empty-string) ndc yet an absent ndc_digits, so ndc_digits is not absent
exactly when ndc is absent. -/
theorem C3_counterexample :
    ∃ m ∈ process_xml_file (some c3doc), m.ndc ≠ none ∧ m.ndc_digits = none := by
  decide

/-- C3 amended: for every mapping emitted by either pipeline,
ndc_digits is absent exactly when ndc is absent or the empty string, and
whenever ndc is present and non-empty, ndc_digits is ndc with the dashes
removed. -/
theorem C3_ndc_digits (doc : Document) (m : OutputMapping)
    (h : m ∈ process_xml_records doc ∨ m ∈ traverse_extract doc) :
    (m.ndc_digits = none ↔ (m.ndc = none ∨ m.ndc = some "")) ∧
    (∀ s, m.ndc = some s → s ≠ "" → m.ndc_digits = some (stripDashes s)) := by
  have hm : m.ndc_digits = mkDigits m.ndc := by
    rcases h with h | h
    · rw [process_xml_records, List.mem_filterMap] at h
      obtain ⟨r, _, hr⟩ := h
      obtain ⟨h1, h2⟩ := rowToMapping_eq_some hr
      rw [h2, h1]
    · rw [traverse_extract, List.mem_filterMap] at h
      obtain ⟨r, _, hr⟩ := h
      obtain ⟨h1, h2⟩ := zipRowToMapping_eq_some hr
      rw [h2, h1]
  constructor
  · rw [hm]
    exact mkDigits_eq_none_iff m.ndc
  · intro s hs hne
    rw [hm, hs]
    exact mkDigits_eq_strip hne

/-- Document with one named establishment carrying a DUNS and one
MANUFACTURE activity with one dash-formatted NDC. -/
def c3wdoc : Document :=
  ⟨[⟨[some "Acme"], [⟨some "1.3.6.1.4.1.519.1", some "123456789"⟩],
     [⟨["MANUFACTURE"], ["C43360"], ["0002-1433-80"]⟩]⟩]⟩

/-- The mapping emitted for `c3wdoc`. -/
def c3m : OutputMapping :=
  ⟨some "0002-1433-80", some "123456789", some "0002143380"⟩

/-- C3 witness: the amended property evaluated on the concrete mapping
emitted for `c3wdoc`. -/
theorem C3_ndc_digits_witness :
    (c3m.ndc_digits = none ↔ (c3m.ndc = none ∨ c3m.ndc = some "")) ∧
    (∀ s, c3m.ndc = some s → s ≠ "" → c3m.ndc_digits = some (stripDashes s)) :=
  C3_ndc_digits c3wdoc c3m (Or.inl (by decide))

/-- Document with one establishment with no id nodes and one activity
whose only NDC attribute is the empty string. -/
def c4doc : Document :=
  ⟨[⟨[], [], [⟨[], [], [""]⟩]⟩]⟩

/-- C4 counterexample: `establishments2` on `c4doc` produces a record
whose ndc is not the sentinel, yet the emit-all conversion discards it,
so a record can be dropped although its ndc is present. -/
theorem C4_counterexample :
    (∃ r ∈ establishments2 c4doc, r.ndc ≠ "n/a") ∧
    process_xml_records c4doc = [] := by
  decide

/-- C4 amended: a record produced by `establishments2` is emitted by the
emit-all conversion exactly when at least one of its converted ndc and
duns values is truthy in the Python sense, that is, present and
non-empty; a record is discarded exactly when each of the two is either
the sentinel or the empty string. -/
theorem C4_emit_condition (doc : Document) (r : Row)
    (_h : r ∈ establishments2 doc) :
    (rowToMapping r).isSome = true ↔
      (pyTruthy (toOpt r.ndc) = true ∨ pyTruthy (toOpt r.duns) = true) := by
  unfold rowToMapping
  split
  · rename_i hc
    rw [Bool.or_eq_true] at hc
    simpa using hc
  · rename_i hc
    rw [Bool.or_eq_true] at hc
    push_neg at hc
    simp [hc.1, hc.2]

/-- Document used as the C4 witness input. -/
def c4wdoc : Document :=
  ⟨[⟨[some "Acme"], [⟨some "1.3.6.1.4.1.519.1", some "123456789"⟩],
     [⟨["MANUFACTURE"], ["C43360"], ["0002-1433-80"]⟩]⟩]⟩

/-- C4 witness: the amended emit condition evaluated on the concrete row
extracted from `c4wdoc`. -/
theorem C4_emit_condition_witness :
    (rowToMapping ⟨1, some "Acme", "123456789", "MANUFACTURE", "C43360",
        "0002-1433-80"⟩).isSome = true ↔
      (pyTruthy (toOpt (Row.ndc ⟨1, some "Acme", "123456789", "MANUFACTURE",
          "C43360", "0002-1433-80"⟩)) = true ∨
       pyTruthy (toOpt (Row.duns ⟨1, some "Acme", "123456789", "MANUFACTURE",
          "C43360", "0002-1433-80"⟩)) = true) :=
  C4_emit_condition c4wdoc
    ⟨1, some "Acme", "123456789", "MANUFACTURE", "C43360", "0002-1433-80"⟩
    (by decide)

/-- Document whose single establishment has an exact MANUFACTURE
activity; used as a C5 witness input. -/
def c5doc : Document :=
  ⟨[⟨[], [⟨none, some "123456789"⟩],
     [⟨["MANUFACTURE"], ["C43360"], ["0002-1433-80"]⟩]⟩]⟩

/-- Document whose single establishment has a MANUFACTURE API activity;
used as a C5 witness input. -/
def c5apidoc : Document :=
  ⟨[⟨[], [], [⟨["MANUFACTURE API"], [], []⟩]⟩]⟩

/-- C5: in the filtered Generation 2 variant, a record produced by
`establishments2` is emitted only when its raw activity label is
literally MANUFACTURE or manufacture, by case-sensitive exact equality;
in particular a record labelled MANUFACTURE API is never emitted. -/
theorem C5_manufacture_filter (doc : Document) (r : Row)
    (_h : r ∈ establishments2 doc) :
    ((zipRowToMapping r).isSome = true →
      (r.act = "MANUFACTURE" ∨ r.act = "manufacture")) ∧
    (r.act = "MANUFACTURE API" → zipRowToMapping r = none) := by
  constructor
  · intro hs
    unfold zipRowToMapping at hs
    split at hs
    · rename_i hc
      exact hc
    · simp at hs
  · intro ha
    unfold zipRowToMapping
    rw [ha, if_neg (by decide)]

/-- C5 witness: the filter evaluated on the concrete MANUFACTURE row of
`c5doc` and on the concrete MANUFACTURE API row of `c5apidoc`. -/
theorem C5_manufacture_filter_witness :
    ((Row.act ⟨1, some "n/a", "123456789", "MANUFACTURE", "C43360",
        "0002-1433-80"⟩ = "MANUFACTURE" ∨
      Row.act ⟨1, some "n/a", "123456789", "MANUFACTURE", "C43360",
        "0002-1433-80"⟩ = "manufacture")) ∧
    zipRowToMapping ⟨1, some "n/a", "n/a", "MANUFACTURE API", "n/a", "n/a"⟩
      = none :=
  ⟨(C5_manufacture_filter c5doc
      ⟨1, some "n/a", "123456789", "MANUFACTURE", "C43360", "0002-1433-80"⟩
      (by decide)).1 (by decide),
   (C5_manufacture_filter c5apidoc
      ⟨1, some "n/a", "n/a", "MANUFACTURE API", "n/a", "n/a"⟩
      (by decide)).2 rfl⟩

/-- Document whose single establishment carries one id node with a
non-DUNS root OID and extension 999. -/
def c6doc : Document :=
  ⟨[⟨[], [⟨some "2.16.840.1.113883.4.82", some "999"⟩], []⟩]⟩

/-- C6 counterexample: every id node of the establishment in `c6doc` has
a root different from the DUNS OID, yet `establishments2` extracts its
extension 999 as the DUNS value, so non-DUNS-rooted id nodes are not
ignored. -/
theorem C6_counterexample :
    (∀ i ∈ (⟨[], [⟨some "2.16.840.1.113883.4.82", some "999"⟩], []⟩ :
        Establishment).ids, i.root ≠ some "1.3.6.1.4.1.519.1") ∧
    (∃ r ∈ establishments2 c6doc, r.duns = "999") := by
  decide

theorem estDuns_mapRoots (f : Option String → Option String) (e : Establishment) :
    estDuns (mapRootsEstab f e) = estDuns e := by
  unfold estDuns mapRootsEstab
  rw [List.filterMap_map]
  rfl

theorem mapRootsEstab_acts (f : Option String → Option String) (e : Establishment) :
    (mapRootsEstab f e).acts = e.acts := rfl

theorem estName_mapRoots (f : Option String → Option String) (e : Establishment) :
    estName (mapRootsEstab f e) = estName e := rfl

theorem estRows_mapRoots (f : Option String → Option String) (seq : Nat)
    (e : Establishment) :
    estRows seq (mapRootsEstab f e) = estRows seq e := by
  unfold estRows
  rw [mapRootsEstab_acts, estName_mapRoots, estDuns_mapRoots]

theorem estabLoop_mapRoots (f : Option String → Option String) (n : Nat)
    (es : List Establishment) :
    estabLoop n (es.map (mapRootsEstab f)) = estabLoop n es := by
  induction es generalizing n with
  | nil => rfl
  | cons e t ih => simp [estabLoop, estRows_mapRoots, ih]

/-- C6 amended: the DUNS value is the extension of the first id node
carrying an extension attribute; the root OID of the id nodes is never
inspected, so rewriting every root arbitrarily leaves the extraction
unchanged and id nodes of any root are accepted. -/
theorem C6_root_ignored (f : Option String → Option String) (doc : Document) :
    establishments2 (mapRoots f doc) = establishments2 doc := by
  unfold establishments2 mapRoots
  by_cases h : doc.estabs = []
  · simp [h]
  · rw [if_neg (by simpa using h), if_neg h]
    exact estabLoop_mapRoots f 0 doc.estabs

/-- C7: a malformed or unparsable document yields the empty per-document
result, and in both batch drivers its presence anywhere in the input
stream changes nothing: the run proceeds over the remaining documents
exactly as if the bad document were absent. -/
theorem C7_parse_failure_recoverable (pre post : List (Option Document)) :
    process_xml_file none = [] ∧
    process_batch (pre ++ none :: post) = process_batch (pre ++ post) ∧
    traverse_batch (pre ++ none :: post) = traverse_batch (pre ++ post) := by
  refine ⟨rfl, ?_, ?_⟩ <;> simp [process_batch, traverse_batch, process_xml_file]

/-- C8: extraction is a pure function of the Document value — the
embedding of `establishments2` performs no mutation, so running it twice
yields identical output, and processing the same document twice in a
batch yields the concatenation of two identical per-document results. -/
theorem C8_idempotent (doc : Document) :
    establishments2 doc = establishments2 doc ∧
    process_batch [some doc, some doc]
      = process_xml_records doc ++ process_xml_records doc :=
  ⟨rfl, by simp [process_batch, process_xml_file]⟩

/-! Key-uniqueness of the NDC-keyed map built by the Generation 1
correlator. -/

theorem setKey_cons_eq {a b k v : String} {t : List (String × String)}
    (hak : a = k) :
    setKey ((a, b) :: t) k v = (k, v) :: t := by
  simp [setKey, hak]

theorem setKey_cons_ne {a b k v : String} {t : List (String × String)}
    (hak : ¬a = k) :
    setKey ((a, b) :: t) k v = (a, b) :: setKey t k v := by
  simp [setKey, hak]

theorem mem_keys_setKey {m : List (String × String)} {k v x : String}
    (h : x ∈ (setKey m k v).map Prod.fst) :
    x = k ∨ x ∈ m.map Prod.fst := by
  induction m with
  | nil =>
      simp only [setKey, List.map_cons, List.map_nil, List.mem_cons,
        List.not_mem_nil, or_false] at h
      exact Or.inl h
  | cons p t ih =>
      obtain ⟨a, b⟩ := p
      by_cases hak : a = k
      · rw [setKey_cons_eq hak, List.map_cons, List.mem_cons] at h
        rcases h with h | h
        · exact Or.inl h
        · exact Or.inr (by rw [List.map_cons, List.mem_cons]; exact Or.inr h)
      · rw [setKey_cons_ne hak, List.map_cons, List.mem_cons] at h
        rcases h with h | h
        · exact Or.inr (by rw [List.map_cons, List.mem_cons]; exact Or.inl h)
        · rcases ih h with h | h
          · exact Or.inl h
          · exact Or.inr (by rw [List.map_cons, List.mem_cons]; exact Or.inr h)

theorem nodup_keys_setKey {m : List (String × String)} {k v : String}
    (h : (m.map Prod.fst).Nodup) :
    ((setKey m k v).map Prod.fst).Nodup := by
  induction m with
  | nil => simp [setKey]
  | cons p t ih =>
      obtain ⟨a, b⟩ := p
      rw [List.map_cons, List.nodup_cons] at h
      by_cases hak : a = k
      · rw [setKey_cons_eq hak, List.map_cons, List.nodup_cons]
        subst hak
        exact h
      · rw [setKey_cons_ne hak, List.map_cons, List.nodup_cons]
        refine ⟨fun hmem => ?_, ih h.2⟩
        rcases mem_keys_setKey hmem with hx | hx
        · exact hak hx
        · exact h.1 hx

theorem nodup_keys_gen1Step (mans : List OrganizationCandidate)
    (m : List (String × String)) (p : ProductCandidate)
    (h : (m.map Prod.fst).Nodup) :
    ((gen1Step mans m p).map Prod.fst).Nodup := by
  unfold gen1Step
  split
  · split
    · exact nodup_keys_setKey h
    · exact h
  · split
    · split
      · exact nodup_keys_setKey h
      · exact h
    · exact h

theorem nodup_keys_foldl (mans : List OrganizationCandidate)
    (prods : List ProductCandidate) (m : List (String × String))
    (h : (m.map Prod.fst).Nodup) :
    ((prods.foldl (gen1Step mans) m).map Prod.fst).Nodup := by
  induction prods generalizing m with
  | nil => simpa using h
  | cons p t ih =>
      rw [List.foldl_cons]
      exact ih _ (nodup_keys_gen1Step mans m p h)

/-- C9: the Generation 1 correlator output is keyed by NDC, so it never
contains two OutputMapping entries with the same ndc value. -/
theorem C9_gen1_unique_ndc (orgs : List OrganizationCandidate)
    (prods : List ProductCandidate) :
    (gen1 orgs prods).Pairwise (fun m1 m2 => m1.ndc ≠ m2.ndc) := by
  unfold gen1
  rw [List.pairwise_map]
  have h := nodup_keys_foldl (gen1Manufacturers orgs) prods [] (by simp)
  rw [List.Nodup, List.pairwise_map] at h
  exact h.imp fun hne => by simpa using hne

/-- C10: the exact-label filter of the zip5 variant tests the raw
activity field before sentinel conversion, so every row whose activity
is the sentinel is discarded — including the single all-sentinel row of
a document with no establishments — and hence a document on which
`establishments2` produced at least one row can yield zero output
mappings. -/
theorem C10_filter_discards_sentinel (r : Row) (h : r.act = "n/a") :
    zipRowToMapping r = none ∧
    (establishments2 ⟨[]⟩ ≠ [] ∧ traverse_extract ⟨[]⟩ = []) := by
  refine ⟨?_, by decide, by decide⟩
  unfold zipRowToMapping
  rw [h, if_neg (by decide)]

/-- C10 witness: the sentinel-activity row of the empty document is
discarded by the filtered variant. -/
theorem C10_filter_discards_sentinel_witness :
    zipRowToMapping ⟨0, some "n/a", "n/a", "n/a", "n/a", "n/a"⟩ = none ∧
    (establishments2 ⟨[]⟩ ≠ [] ∧ traverse_extract ⟨[]⟩ = []) :=
  C10_filter_discards_sentinel ⟨0, some "n/a", "n/a", "n/a", "n/a", "n/a"⟩ rfl
